import Mathlib

/-!
Verification of the generative asset pipeline of the `ai-auto-generate`
repository against its natural-language specification.

The development shallowly embeds the relevant TypeScript code:

* the Generation Gate (`src/components/GeneratorTabs.tsx`, `lockApi` /
  `unlockApi` and the caller idiom `if (apiLock.isApiLocked) return;
  apiLock.lockApi(); ... finally { apiLock.unlockApi() }`),
* the error classifier `handleApiError` and the service functions of
  `src/services/geminiService.ts`,
* the IndexedDB-backed asset store (`addAsset`, `getAssetsByType`,
  `getAllAssets`, `deleteAsset`),
* the store writes of the character generator handlers
  (`src/components/CharacterGenerator.tsx`),
* the archive assembler `handleDownload`
  (`src/components/GameAssembler.tsx`),
* the fixed prompt contracts (`generateWalkingSpriteFromImage`,
  `generateCombatEffect`) and the multi-reference synthesis
  `synthesizeCharacterFromParts`.

Machine-level conventions of the embedding:

* JavaScript strings are Lean `String`s; `String.prototype.includes` is
  `strIncludes` below; truthiness of a string is the test against `""`.
* `JSON.parse` applied to a provider payload is modeled as an oracle
  attached to the input (an `Option` field carrying the parse outcome),
  since the claims under study quantify over provider responses.
* `Date.now()` is an explicit `now` argument to the store operations.
* `Array.prototype.sort` is stable (ECMAScript 2019); the embedding uses
  a stable insertion sort, which produces the same list for the
  comparator used by the code.
-/

/-- Boolean test that the pattern list is an initial segment of the
second list (character-by-character). -/
def beginsWith : List Char → List Char → Bool
  | [], _ => true
  | _ :: _, [] => false
  | p :: ps, c :: cs => p == c && beginsWith ps cs

/-- Boolean substring test on character lists, used to model
`String.prototype.includes`. -/
def hasSubList (pat : List Char) : List Char → Bool
  | [] => beginsWith pat []
  | c :: cs => beginsWith pat (c :: cs) || hasSubList pat cs

/-- Model of the JavaScript expression `s.includes(pat)`. -/
def strIncludes (s pat : String) : Bool :=
  hasSubList pat.data s.data

section GenerationGate

/-! ### Generation Gate

`src/components/GeneratorTabs.tsx` lines 72-79:

```
const [isApiLocked, setIsApiLocked] = useState(false);
const lockApi = () => setIsApiLocked(true);
const unlockApi = () => setIsApiLocked(false);
```

The gate state is the boolean `isApiLocked`.  The acquisition protocol of
every generator handler is the two-step idiom

```
if (apiLock.isApiLocked) return;   // acquire fails: already held
apiLock.lockApi();                 // acquire succeeds: set the flag
```

executed synchronously (no `await` separates the test from the set, so in
the single-threaded event loop the pair is atomic), with
`apiLock.unlockApi()` in the handler finally-block. -/

/-- Embedding of `lockApi`: sets the `isApiLocked` flag. -/
def lockApi (_s : Bool) : Bool := true

/-- Embedding of `unlockApi`: clears the `isApiLocked` flag. -/
def unlockApi (_s : Bool) : Bool := false

/-- The acquire operation of the Generation Gate: the caller idiom
`if (apiLock.isApiLocked) return; apiLock.lockApi();`.  Returns
(success flag, new gate state). -/
def acquireGate (s : Bool) : Bool × Bool :=
  if s then (false, s) else (true, lockApi s)

/-- The release operation of the Generation Gate: `apiLock.unlockApi()`. -/
def releaseGate (s : Bool) : Bool := unlockApi s

end GenerationGate

section UiTransitionSystem

/-! ### System-wide call admission (claim C1)

Two classes of provider-calling code paths exist:

* every generator-component handler (for example
  `CharacterGenerator.handleGenerateBaseCharacter`,
  `GameAssembler.handleGenerate`, and sixteen more of the same shape)
  guards the call with the gate idiom above and releases in `finally`;
* `App.handleFlashOfInspiration` (`src/App.tsx` lines 51-94) calls
  `generateGamePlan` guarded only by its private `isGeneratingGame` flag
  and never touches the gate.

The transition system below has one event pair per class.  A provider
call is "in flight" between its start and finish events; starts can only
happen when the guarding flag of that class is clear, mirroring the
synchronous guard-then-set prologue of the handlers; the `await` of the
provider call allows arbitrary interleaving of the other class. -/

/-- UI-level state: the gate flag, the number of gate-guarded provider
calls in flight, the flash-of-inspiration busy flag, and the number of
flash-path provider calls in flight. -/
structure UiState where
  isApiLocked : Bool
  tabCalls : Nat
  isGeneratingGame : Bool
  flashCalls : Nat
  deriving DecidableEq, Repr

/-- Initial UI state: no locks held, no calls in flight. -/
def UiState.start : UiState := ⟨false, 0, false, 0⟩

/-- Number of provider calls in flight system-wide. -/
def UiState.callsInFlight (s : UiState) : Nat := s.tabCalls + s.flashCalls

/-- Atomic events of the UI.  `tabStart`/`tabFinish` are the common
prologue/finally of every generator-component handler; `flashStart`/
`flashFinish` are the prologue/finally of `handleFlashOfInspiration`. -/
inductive UiStep : UiState → UiState → Prop
  | tabStart (s : UiState) (h : s.isApiLocked = false) :
      UiStep s ⟨true, s.tabCalls + 1, s.isGeneratingGame, s.flashCalls⟩
  | tabFinish (s : UiState) (h : 0 < s.tabCalls) :
      UiStep s ⟨false, s.tabCalls - 1, s.isGeneratingGame, s.flashCalls⟩
  | flashStart (s : UiState) (h : s.isGeneratingGame = false) :
      UiStep s ⟨s.isApiLocked, s.tabCalls, true, s.flashCalls + 1⟩
  | flashFinish (s : UiState) (h : 0 < s.flashCalls) :
      UiStep s ⟨s.isApiLocked, s.tabCalls, false, s.flashCalls - 1⟩

/-- States reachable from the initial UI state. -/
inductive UiReachable : UiState → Prop
  | start : UiReachable UiState.start
  | step {s t : UiState} : UiReachable s → UiStep s t → UiReachable t

end UiTransitionSystem

/-- C2: the Generation Gate is a non-blocking mutual-exclusion flag.
`acquire` fails immediately when the gate is already held (in particular a
second `acquire` before the matching `release` fails) and otherwise sets
the flag and succeeds; `release` always clears the flag, so an `acquire`
right after a `release` succeeds. -/
theorem C2_gate_semantics (s : Bool) :
    ((acquireGate s).1 = true → (acquireGate (acquireGate s).2).1 = false)
    ∧ (acquireGate (releaseGate s)).1 = true
    ∧ (s = true → (acquireGate s).1 = false ∧ (acquireGate s).2 = s)
    ∧ (s = false → acquireGate s = (true, true))
    ∧ releaseGate s = false := by
  cases s <;> simp [acquireGate, releaseGate, lockApi, unlockApi]

/-- Witness for C2 at the concrete held state: releasing and re-acquiring
succeeds. -/
theorem C2_gate_semantics_witness :
    (acquireGate (releaseGate true)).1 = true :=
  (C2_gate_semantics true).2.1

/-- C1 counterexample: the claim that at most one provider call is ever in
flight fails on the code.  A generator-tab call acquires the gate, and
while it is awaiting, `handleFlashOfInspiration` (which never acquires
the gate) starts a second provider call: the state with two calls in
flight is reachable. -/
theorem C1_two_calls_in_flight :
    UiReachable ⟨true, 1, true, 1⟩
    ∧ UiState.callsInFlight ⟨true, 1, true, 1⟩ = 2 := by
  refine ⟨?_, rfl⟩
  have h1 : UiStep UiState.start ⟨true, 1, false, 0⟩ :=
    UiStep.tabStart UiState.start rfl
  have h2 : UiStep ⟨true, 1, false, 0⟩ ⟨true, 1, true, 1⟩ :=
    UiStep.flashStart ⟨true, 1, false, 0⟩ rfl
  exact UiReachable.step (UiReachable.step UiReachable.start h1) h2

/-- C1 amended: every gate-guarded code path (all generator-component
handlers) acquires before the call and releases on every exit, so at most
one gate-guarded provider call is in flight at any time, and the gate is
held whenever one is in flight.  The flash-of-inspiration path of
`src/App.tsx` issues its provider call without acquiring the gate, so the
system-wide bound of one call does not hold (see the counterexample). -/
theorem C1_gate_guarded_paths_exclusive (s : UiState) (h : UiReachable s) :
    s.tabCalls ≤ 1 ∧ (0 < s.tabCalls → s.isApiLocked = true) := by
  induction h with
  | start => exact ⟨by decide, fun hp => absurd hp (by decide)⟩
  | @step u t hr hstep ih =>
    cases hstep with
    | tabStart hlock =>
      have hz : u.tabCalls = 0 := by
        by_contra hne
        have hl := ih.2 (Nat.pos_of_ne_zero hne)
        rw [hlock] at hl
        exact Bool.false_ne_true hl
      refine ⟨?_, fun _ => rfl⟩
      show u.tabCalls + 1 ≤ 1
      omega
    | tabFinish hpos =>
      have h1 : u.tabCalls ≤ 1 := ih.1
      refine ⟨?_, ?_⟩
      · show u.tabCalls - 1 ≤ 1
        omega
      · show 0 < u.tabCalls - 1 → false = true
        intro hp
        exact absurd (by omega : u.tabCalls ≤ 0) (by omega)
    | flashStart hflag => exact ih
    | flashFinish hflag => exact ih

/-- Witness for the amended C1 at a concrete reachable state with one
gate-guarded call in flight. -/
theorem C1_gate_guarded_witness :
    (⟨true, 1, false, 0⟩ : UiState).tabCalls ≤ 1 ∧
      (0 < (⟨true, 1, false, 0⟩ : UiState).tabCalls →
        (⟨true, 1, false, 0⟩ : UiState).isApiLocked = true) :=
  C1_gate_guarded_paths_exclusive ⟨true, 1, false, 0⟩
    (UiReachable.step UiReachable.start (UiStep.tabStart UiState.start rfl))

section ErrorClassifier

/-! ### Error classifier (claim C4)

`src/services/geminiService.ts` lines 37-73, `handleApiError`.  The
function inspects the thrown value; for an `Error` it checks two literal
markers on the message, then runs

```
try {
    const parsedError = JSON.parse(error.message);
    if (parsedError?.error?.code === 429) { throw new Error(t('serviceErrors.rateLimitError')); }
    const message = parsedError?.error?.message || error.message;
    throw new Error(t('serviceErrors.geminiApiError', message));
} catch (e) {
    if (error.message.includes("429") || error.message.includes("RESOURCE_EXHAUSTED")) {
        throw new Error(t('serviceErrors.rateLimitError'));
    }
    throw new Error(t('serviceErrors.geminiApiError', error.message));
}
```

Every control path of the try block throws, and in JavaScript a throw
from a try block transfers control to the `catch` clause of the same
statement; hence the value the function actually raises is always the
one computed by the catch block.  The embedding keeps both blocks as
separate definitions so that this behaviour is visible. -/

/-- The two fields of a parsed provider error envelope that the code
reads: `parsedError?.error?.code` and `parsedError?.error?.message`. -/
structure ErrorEnvelope where
  code : Option Int
  message : Option String
  deriving DecidableEq, Repr

/-- A raw failure handed to `handleApiError`: either a thrown value that
is not an `Error` instance, or an `Error` carrying a message string.  The
`envelope` field is the outcome of `JSON.parse` on the message, viewed
through the two fields the code reads (`none` models a parse exception). -/
inductive RawFailure
  | nonError
  | jsError (msg : String) (envelope : Option ErrorEnvelope)
  deriving DecidableEq, Repr

/-- The classification raised by `handleApiError`, one constructor per
translation key it can throw with (plus the rethrow of the original error
for the api-key marker). -/
inductive ClassifiedError
  | rethrown (msg : String)
  | imagenBilledOnly
  | rateLimit
  | geminiApi (message : String)
  | unknownGeneration
  deriving DecidableEq, Repr

/-- Model of the JavaScript expression `a || b` for an optional string
`a` (absent and empty strings are falsy). -/
def jsOrElse (a : Option String) (b : String) : String :=
  match a with
  | some s => if s == "" then b else s
  | none => b

/-- Literal marker checked first by `handleApiError`. -/
def apiKeyNotSetMarker : String := "Gemini API key is not set"

/-- Literal marker for the billed-users-only Imagen error. -/
def imagenBilledMarker : String := "Imagen API is only accessible to billed users"

/-- A value thrown by the try block of `handleApiError`: either the
exception of `JSON.parse` itself, or one of the deliberately constructed
classifications. -/
inductive TryThrown
  | parseFailure
  | classified (e : ClassifiedError)
  deriving DecidableEq, Repr

/-- The value that the try block of `handleApiError` throws.  This value
never escapes the function: it is caught by the catch clause of the same
try statement (see `handleApiError`). -/
def handleApiErrorTry (msg : String) : Option ErrorEnvelope → TryThrown
  | none => .parseFailure
  | some env =>
      if env.code == some 429 then .classified .rateLimit
      else .classified (.geminiApi (jsOrElse env.message msg))

/-- The classification computed by the catch block of `handleApiError`,
a function of the raw message only. -/
def handleApiErrorCatch (msg : String) : ClassifiedError :=
  if strIncludes msg "429" || strIncludes msg "RESOURCE_EXHAUSTED" then .rateLimit
  else .geminiApi msg

/-- Embedding of `handleApiError` (`src/services/geminiService.ts` 37-73).
The envelope argument does not influence the result: every path of the
try block throws into the catch clause of the same statement, so after
the two marker checks the outcome is `handleApiErrorCatch` of the raw
message. -/
def handleApiError : RawFailure → ClassifiedError
  | .nonError => .unknownGeneration
  | .jsError msg envelope =>
      if strIncludes msg apiKeyNotSetMarker then .rethrown msg
      else if strIncludes msg imagenBilledMarker then .imagenBilledOnly
      else
        match handleApiErrorTry msg envelope with
        | _ => handleApiErrorCatch msg

end ErrorClassifier

section Translations

/-! ### Rendered messages

The translation table `src/services/translations.ts` is imported by the
code but is not part of the sources; its message texts are modelled. -/

/-- Modelled from the spec: the translation lookup `t(key, args)` of the
localization layer, whose table (`src/services/translations.ts`) is not
among the sources.  We render a message as its key followed by the
interpolated arguments, which keeps distinct keys distinct and preserves
every argument verbatim. -/
def renderKey (key : String) (args : List String) : String :=
  key ++ ": " ++ String.intercalate ", " args

/-- Modelled from the spec: the per-rating detail text
`t('serviceErrors.safetyRatingDetail', category, probability)`; the spec
requires the flagged category and severity to appear in the detail. -/
def safetyRatingDetail (category probability : String) : String :=
  category ++ " (" ++ probability ++ ")"

/-- Error kinds of the §4.4 / §7 specification taxonomy. -/
inductive SpecErrorKind
  | safetyRejection
  | rateLimited
  | billingRequired
  | invalidInput
  | noOutputData
  | unknown
  deriving DecidableEq, Repr

/-- Modelled from the spec: the taxonomy kind of a rendered error
message, read off from the translation key that produced it. -/
def specErrorKind (m : String) : SpecErrorKind :=
  if beginsWith "serviceErrors.safetyRejection".data m.data then .safetyRejection
  else if beginsWith "serviceErrors.rateLimitError".data m.data then .rateLimited
  else if beginsWith "serviceErrors.imagenBilledOnlyError".data m.data then .billingRequired
  else if beginsWith "serviceErrors.invalidBase64Data".data m.data then .invalidInput
  else if beginsWith "serviceErrors.invalidMainImageData".data m.data then .invalidInput
  else if beginsWith "serviceErrors.atLeastOneRefImage".data m.data then .invalidInput
  else if beginsWith "serviceErrors.noImageDataError".data m.data then .noOutputData
  else .unknown

end Translations

section GenerationClient

/-! ### Generation Client image path (claims C5, C10)

`src/services/geminiService.ts`: `parseDataUrl` (lines 28-32),
`generateAssetFromImage` (lines 111-157) and the identical response
handling of `synthesizeCharacterFromParts` (lines 268-350). -/

/-- Recursive worker for `parseDataUrl`: splits a character list at the
last occurrence of `";base64,"` that leaves a nonempty tail, preferring
the longest possible first component — the backtracking behaviour of the
greedy `(.+)` group in the regex `^data:(.+);base64,(.+)$`. -/
def dataUrlSplit : List Char → Option (List Char × List Char)
  | [] => none
  | c :: cs =>
    match dataUrlSplit cs with
    | some (m, d) => some (c :: m, d)
    | none =>
      if beginsWith ";base64,".data (c :: cs) then
        match (c :: cs).drop 8 with
        | [] => none
        | d :: ds => some ([], d :: ds)
      else none

/-- Embedding of `parseDataUrl`: the match of
`/^data:(.+);base64,(.+)$/` returning the mime type and payload.  The
`.` of the regex does not match line terminators, so a newline anywhere
after `data:` makes the match fail. -/
def parseDataUrl (dataUrl : String) : Option (String × String) :=
  let cs := dataUrl.data
  if beginsWith "data:".data cs
      && (cs.drop 5).all (fun c => !(c == '\n') && !(c == '\r')) then
    match dataUrlSplit (cs.drop 5) with
    | some (m, d) => if m.isEmpty then none else some (⟨m⟩, ⟨d⟩)
    | none => none
  else none

/-- One entry of `candidate.safetyRatings`. -/
structure SafetyRating where
  category : String
  probability : String
  deriving DecidableEq, Repr

/-- One entry of `candidate.content.parts` in a provider response. -/
inductive RespPart
  | inlineData (data : String)
  | textPart (text : String)
  deriving DecidableEq, Repr

/-- The fields of `response.candidates[0]` that the code reads. -/
structure Candidate where
  parts : List RespPart
  finishReason : Option String
  safetyRatings : List SafetyRating
  deriving DecidableEq, Repr

/-- Outcome of the awaited `ai.models.generateContent` call: either the
SDK threw, or it responded (possibly with no candidate). -/
inductive ProviderImageOutcome
  | thrown (f : RawFailure)
  | responded (candidate : Option Candidate)
  deriving DecidableEq, Repr

/-- An error as observed by the caller of a service function: either a
classification raised through `handleApiError`, or an error thrown
directly outside the try/catch (before any provider call). -/
inductive ClientError
  | classified (e : ClassifiedError)
  | direct (msg : String)
  deriving DecidableEq, Repr

/-- Rendered message of a classification (see `renderKey`). -/
def ClassifiedError.message : ClassifiedError → String
  | .rethrown m => m
  | .imagenBilledOnly => renderKey "serviceErrors.imagenBilledOnlyError" []
  | .rateLimit => renderKey "serviceErrors.rateLimitError" []
  | .geminiApi m => renderKey "serviceErrors.geminiApiError" [m]
  | .unknownGeneration => renderKey "serviceErrors.unknownGenerationError" []

/-- Rendered message of a caller-visible error. -/
def ClientError.message : ClientError → String
  | .classified e => e.message
  | .direct m => m

/-- The first part carrying `inlineData`
(`parts.find(part => part.inlineData)`). -/
def firstInlineData : List RespPart → Option String
  | [] => none
  | .inlineData d :: _ => some d
  | .textPart _ :: rest => firstInlineData rest

/-- The first part with a truthy `text` field
(`parts.find(part => part.text)`; an empty string is falsy). -/
def firstNonemptyText : List RespPart → Option String
  | [] => none
  | .inlineData _ :: rest => firstNonemptyText rest
  | .textPart t :: rest => if t == "" then firstNonemptyText rest else some t

/-- The joined detail of the flagged safety ratings: ratings whose
probability is neither `NEGLIGIBLE` nor `LOW`, rendered and joined with
`", "` (an absent or all-filtered list joins to the empty string, which
the code then replaces by `''`). -/
def joinSafetyDetails (rs : List SafetyRating) : String :=
  String.intercalate ", "
    ((rs.filter (fun r => !(r.probability == "NEGLIGIBLE") && !(r.probability == "LOW"))).map
      (fun r => safetyRatingDetail r.category r.probability))

/-- The response-handling block shared verbatim by
`generateAssetFromImage`, `optimizeCharacterImage` and
`synthesizeCharacterFromParts`: return the first inline image as a data
URI; otherwise build the safety-rejection or refusal message and throw it
— a throw that the surrounding catch hands to `handleApiError` (the
envelope argument of the raw failure does not influence its result). -/
def handleImageResponse (outcome : ProviderImageOutcome) : Except ClientError String :=
  match outcome with
  | .thrown f => .error (.classified (handleApiError f))
  | .responded candidate =>
    let parts := (candidate.map Candidate.parts).getD []
    let imgData : Option String :=
      match firstInlineData parts with
      | some d => if d == "" then none else some d
      | none => none
    match imgData with
    | some d => .ok ("data:image/png;base64," ++ d)
    | none =>
      let msg :=
        if (candidate.map Candidate.finishReason).getD none == some "SAFETY" then
          renderKey "serviceErrors.safetyRejection"
            [joinSafetyDetails ((candidate.map Candidate.safetyRatings).getD [])]
        else
          jsOrElse (firstNonemptyText parts) (renderKey "serviceErrors.apiRefusalError" [])
      .error (.classified (handleApiError (.jsError msg none)))

/-- Embedding of `generateAssetFromImage` (lines 111-157): reject an
unparseable reference image before the provider call, then handle the
response. -/
def generateAssetFromImage (base64ImageDataUrl : String) (prompt : String)
    (outcome : ProviderImageOutcome) : Except ClientError String :=
  match parseDataUrl base64ImageDataUrl with
  | none => .error (.direct (renderKey "serviceErrors.invalidBase64Data" []))
  | some _ =>
    match prompt with
    | _ => handleImageResponse outcome

end GenerationClient

/-- The raw failure used as C4 failing input: an `Error` whose message is
the provider envelope `{"error":{"code":500,"message":"boom"}}`. -/
def c4RawMessage : String :=
  "\x7b\"error\":\x7b\"code\":500,\"message\":\"boom\"\x7d\x7d"

/-- The parse outcome of `c4RawMessage` through the fields the code
reads. -/
def c4Envelope : ErrorEnvelope := ⟨some 500, some "boom"⟩

/-- C4: evaluation at the failing input.  A failure that parses as a
provider error envelope (code 500, message "boom") is classified by the
try block as Unknown carrying the provider message "boom" — exactly what
the claim states — but that throw is caught by the catch clause of the
same try statement, and the caller receives Unknown carrying the whole
raw envelope text instead. -/
theorem C4_classifier_envelope_message :
    handleApiError (.jsError c4RawMessage (some c4Envelope)) = .geminiApi c4RawMessage
    ∧ handleApiErrorTry c4RawMessage (some c4Envelope) = .classified (.geminiApi "boom")
    ∧ handleApiError (.jsError c4RawMessage (some c4Envelope)) ≠ .geminiApi "boom" := by
  decide

/-- The provider response used as C5 failing input: no media part,
finish reason SAFETY, one negligible and one high-probability rating. -/
def c5Candidate : Candidate :=
  ⟨[], some "SAFETY",
    [⟨"HARM_CATEGORY_HATE_SPEECH", "NEGLIGIBLE"⟩,
     ⟨"HARM_CATEGORY_DANGEROUS_CONTENT", "HIGH"⟩]⟩

/-- The SafetyRejection message that `generateAssetFromImage` constructs
for `c5Candidate`: detail limited to the flagged (non-negligible,
non-low) categories with their severities. -/
def c5SafetyMessage : String :=
  renderKey "serviceErrors.safetyRejection" ["HARM_CATEGORY_DANGEROUS_CONTENT (HIGH)"]

/-- C5: evaluation at the failing input.  On a safety-withheld response
the client builds the SafetyRejection message including the flagged
category/severity list, but throws it inside its own try block, so the
catch hands it to `handleApiError`, which re-wraps it: the error that
reaches the caller is of the Unknown kind (the geminiApiError key) with
the SafetyRejection text merely embedded — not the SafetyRejection
classification the claim promises. -/
theorem C5_safety_rewrapped :
    generateAssetFromImage "data:image/png;base64,AAA" "p" (.responded (some c5Candidate))
      = .error (.classified (.geminiApi c5SafetyMessage))
    ∧ specErrorKind (ClassifiedError.message (.geminiApi c5SafetyMessage)) = .unknown
    ∧ specErrorKind c5SafetyMessage = .safetyRejection
    ∧ strIncludes c5SafetyMessage "HARM_CATEGORY_DANGEROUS_CONTENT (HIGH)" = true :=
  ⟨rfl, by decide, by decide, by decide⟩

section AssetStore

/-! ### Asset Store (claim C3)

`src/services/geminiService.ts` lines 1108-1230.  The store is one
IndexedDB object store with an auto-incrementing primary key `id`
(starting at 1) and a secondary index on `type`.  `addAsset` appends a
record stamped with `Date.now()`; `getAssetsByType` runs
`index('type').getAll(type)` — which yields the matching records in
primary-key order — and then sorts with
`(a, b) => b.timestamp - a.timestamp`.  `Array.prototype.sort` is stable
(ECMAScript 2019), and for this comparator the stable result is the one
computed by the insertion sort `sortByTimestampDesc` below: each record
is placed before the first already-placed record whose timestamp is less
than or equal to its own, so records with equal timestamps keep their
primary-key (insertion) order. -/

/-- One stored record (`AssetRecord` interface of the source; for
text-based assets `imageDataUrl` holds the text/JSON string). -/
structure AssetRecord where
  id : Nat
  type : String
  prompt : String
  imageDataUrl : String
  timestamp : Nat
  deriving DecidableEq, Repr

/-- The object store: records in primary-key order plus the next
auto-increment key. -/
structure AssetDB where
  records : List AssetRecord
  nextId : Nat
  deriving DecidableEq, Repr

/-- A fresh store: IndexedDB auto-increment keys start at 1. -/
def AssetDB.empty : AssetDB := ⟨[], 1⟩

/-- Embedding of `addAsset`: assign the next key and the current
timestamp, persist, return the new key. -/
def addAsset (db : AssetDB) (type prompt imageDataUrl : String) (now : Nat) :
    AssetDB × Nat :=
  (⟨db.records ++ [⟨db.nextId, type, prompt, imageDataUrl, now⟩], db.nextId + 1⟩,
    db.nextId)

/-- Insert a record into a descending-by-timestamp list, before the first
record whose timestamp does not exceed its own. -/
def insertByTs (x : AssetRecord) : List AssetRecord → List AssetRecord
  | [] => [x]
  | y :: ys => if y.timestamp ≤ x.timestamp then x :: y :: ys else y :: insertByTs x ys

/-- The stable descending sort performed by
`sort((a, b) => b.timestamp - a.timestamp)`. -/
def sortByTimestampDesc : List AssetRecord → List AssetRecord
  | [] => []
  | x :: xs => insertByTs x (sortByTimestampDesc xs)

/-- Embedding of `getAssetsByType`: the records of the given type, sorted
by timestamp descending (stable). -/
def getAssetsByType (db : AssetDB) (type : String) : List AssetRecord :=
  sortByTimestampDesc (db.records.filter (fun r => r.type == type))

/-- Embedding of `getAllAssets`. -/
def getAllAssets (db : AssetDB) : List AssetRecord :=
  sortByTimestampDesc db.records

/-- Embedding of `deleteAsset`: `if (!id) return;` then delete by key (a
no-op when the key is absent). -/
def deleteAsset (db : AssetDB) (id : Nat) : AssetDB :=
  if id == 0 then db
  else ⟨db.records.filter (fun r => !(r.id == id)), db.nextId⟩

/-- One `addAsset` call of a test scenario. -/
structure AddReq where
  type : String
  prompt : String
  imageDataUrl : String
  now : Nat
  deriving DecidableEq, Repr

/-- Run a sequence of `addAsset` calls. -/
def runAdds : AssetDB → List AddReq → AssetDB
  | db, [] => db
  | db, a :: rest => runAdds (addAsset db a.type a.prompt a.imageDataUrl a.now).1 rest

/-- The order in which `getAssetsByType` lists two records: strictly newer
timestamps first, and records with equal timestamps in ascending-id
(insertion) order. -/
def recBefore (a b : AssetRecord) : Prop :=
  b.timestamp < a.timestamp ∨ (a.timestamp = b.timestamp ∧ a.id < b.id)

theorem insertByTs_perm (x : AssetRecord) (l : List AssetRecord) :
    (insertByTs x l).Perm (x :: l) := by
  induction l with
  | nil => simp [insertByTs]
  | cons y ys ih =>
    by_cases h : y.timestamp ≤ x.timestamp
    · simp [insertByTs, h]
    · simp only [insertByTs, if_neg h]
      exact ((ih.cons y).trans (List.Perm.swap x y ys))

theorem sortByTimestampDesc_perm (l : List AssetRecord) :
    (sortByTimestampDesc l).Perm l := by
  induction l with
  | nil => simp [sortByTimestampDesc]
  | cons x xs ih =>
    exact (insertByTs_perm x (sortByTimestampDesc xs)).trans (ih.cons x)

theorem insertByTs_pairwise (x : AssetRecord) (l : List AssetRecord)
    (hl : l.Pairwise recBefore)
    (hid : ∀ y ∈ l, x.timestamp = y.timestamp → x.id < y.id) :
    (insertByTs x l).Pairwise recBefore := by
  induction l with
  | nil => simp [insertByTs, List.Pairwise]
  | cons y ys ih =>
    rcases List.pairwise_cons.mp hl with ⟨hy, hys⟩
    by_cases h : y.timestamp ≤ x.timestamp
    · simp only [insertByTs, if_pos h]
      refine List.pairwise_cons.mpr ⟨?_, hl⟩
      intro z hz
      rcases List.mem_cons.mp hz with hzy | hzys
      · rw [hzy]
        rcases Nat.lt_or_ge y.timestamp x.timestamp with hlt | hge
        · exact Or.inl hlt
        · have he : x.timestamp = y.timestamp := Nat.le_antisymm hge h
          exact Or.inr ⟨he, hid y (List.mem_cons_self y ys) he⟩
      · rcases hy z hzys with hlt | ⟨he, _⟩
        · exact Or.inl (Nat.lt_of_lt_of_le hlt h)
        · rcases Nat.lt_or_ge z.timestamp x.timestamp with hlt2 | hge2
          · exact Or.inl hlt2
          · have he2 : x.timestamp = z.timestamp := by omega
            exact Or.inr ⟨he2, hid z (List.mem_cons_of_mem y hzys) he2⟩
    · simp only [insertByTs, if_neg h]
      refine List.pairwise_cons.mpr ⟨?_, ?_⟩
      · intro z hz
        have hz2 : z = x ∨ z ∈ ys :=
          List.mem_cons.mp ((insertByTs_perm x ys).mem_iff.mp hz)
        rcases hz2 with hzx | hzys
        · subst hzx
          exact Or.inl (Nat.lt_of_not_le h)
        · exact hy z hzys
      · exact ih hys (fun y2 hy2 => hid y2 (List.mem_cons_of_mem y hy2))

theorem sortByTimestampDesc_pairwise (l : List AssetRecord)
    (h : l.Pairwise (fun a b => a.id < b.id)) :
    (sortByTimestampDesc l).Pairwise recBefore := by
  induction l with
  | nil => simp [sortByTimestampDesc, List.Pairwise]
  | cons x xs ih =>
    rcases List.pairwise_cons.mp h with ⟨hx, hxs⟩
    refine insertByTs_pairwise x (sortByTimestampDesc xs) (ih hxs) ?_
    intro y hy _
    exact hx y ((sortByTimestampDesc_perm xs).mem_iff.mp hy)

theorem runAdds_invariant (reqs : List AddReq) :
    ∀ db : AssetDB,
      db.records.Pairwise (fun a b => a.id < b.id) →
      (∀ r ∈ db.records, r.id < db.nextId) →
      (runAdds db reqs).records.Pairwise (fun a b => a.id < b.id)
      ∧ ∀ r ∈ (runAdds db reqs).records, r.id < (runAdds db reqs).nextId := by
  induction reqs with
  | nil => exact fun db h1 h2 => ⟨h1, h2⟩
  | cons a rest ih =>
    intro db h1 h2
    refine ih _ ?_ ?_
    · refine List.pairwise_append.mpr ⟨h1, List.pairwise_singleton _ _, ?_⟩
      intro r hr r2 hr2
      have : r2 = (⟨db.nextId, a.type, a.prompt, a.imageDataUrl, a.now⟩ : AssetRecord) :=
        List.mem_singleton.mp hr2
      subst this
      exact h2 r hr
    · intro r hr
      rcases List.mem_append.mp hr with hold | hnew
      · exact Nat.lt_succ_of_lt (h2 r hold)
      · have : r = (⟨db.nextId, a.type, a.prompt, a.imageDataUrl, a.now⟩ : AssetRecord) :=
          List.mem_singleton.mp hnew
        subst this
        exact Nat.lt_succ_self _

end AssetStore

/-- The two-add scenario for C3: two `character` records stored with the
same `Date.now()` value. -/
def c3Database : AssetDB :=
  runAdds AssetDB.empty
    [⟨"character", "a knight", "data:image/png;base64,AAA", 100⟩,
     ⟨"character", "a mage", "data:image/png;base64,BBB", 100⟩]

/-- C3 counterexample: when two records of the category carry equal
timestamps, `getAssetsByType` lists the EARLIER-added record (id 1)
first — the stable sort keeps the primary-key order on ties — whereas
the claim requires the later-added record (id 2) to appear first. -/
theorem C3_equal_timestamp_order :
    (getAssetsByType c3Database "character").map (fun r => r.id) = [1, 2]
    ∧ (getAssetsByType c3Database "character").map (fun r => r.id) ≠ [2, 1] := by
  decide

/-- C3 amended: for every sequence of `add` calls, `listByCategory c`
returns exactly the stored records whose category equals `c` (a
permutation of the filtered store), ordered by `createdAt` descending;
records with equal timestamps appear in ascending-id (insertion) order,
earlier-added first. -/
theorem C3_listByCategory_ordering (reqs : List AddReq) (c : String) :
    (getAssetsByType (runAdds AssetDB.empty reqs) c).Perm
      ((runAdds AssetDB.empty reqs).records.filter (fun r => r.type == c))
    ∧ (getAssetsByType (runAdds AssetDB.empty reqs) c).Pairwise recBefore := by
  have hinv := runAdds_invariant reqs AssetDB.empty
    (by simp [AssetDB.empty]) (by simp [AssetDB.empty])
  exact ⟨sortByTimestampDesc_perm _,
    sortByTimestampDesc_pairwise _ (hinv.1.filter _)⟩

section CharacterGeneratorWrites

/-! ### Store writes of the character generator (claim C6)

`src/components/CharacterGenerator.tsx`:

* `handleGenerateBaseCharacter` (lines 129-151): on success `addAsset({
  type: 'character', prompt, imageDataUrl })`, then reload history;
* `handleAdjustBaseCharacter` (lines 153-174): on success `addAsset`
  with prompt `` `已调整: ${adjustmentPrompt} (原始: ${prompt})` `` —
  lineage encoded only in this free-text prompt;
* `handleGenerateAsset` (lines 176-214), the derived-asset handler for
  walking sprite / battler / faceset: on success it only stores the image
  in component state (`setWalkingSprite` etc.); it contains no `addAsset`
  call.

Each embedding function returns the list of `addAsset` calls the handler
performs for a given generation outcome. -/

/-- Outcome of the awaited service call inside a handler. -/
inductive GenResult
  | ok (imageDataUrl : String)
  | failed (e : ClientError)
  deriving DecidableEq, Repr

/-- Arguments of one `addAsset` call made by a handler. -/
structure AddCall where
  type : String
  prompt : String
  imageDataUrl : String
  deriving DecidableEq, Repr

/-- The derived asset kinds of `handleGenerateAsset`. -/
inductive DerivedAssetKind
  | walking
  | battler
  | faceset
  deriving DecidableEq, Repr

/-- Store writes of `handleGenerateBaseCharacter`. -/
def handleGenerateBaseCharacterAdds (prompt : String) : GenResult → List AddCall
  | .ok url => [⟨"character", prompt, url⟩]
  | .failed _ => []

/-- Store writes of `handleAdjustBaseCharacter`. -/
def handleAdjustBaseCharacterAdds (prompt adjustmentPrompt : String) :
    GenResult → List AddCall
  | .ok url => [⟨"character", "已调整: " ++ adjustmentPrompt ++ " (原始: " ++ prompt ++ ")", url⟩]
  | .failed _ => []

/-- Store writes of `handleGenerateAsset` (walking sprite, battler,
faceset): the handler never calls `addAsset`. -/
def handleGenerateAssetAdds (_assetType : DerivedAssetKind) : GenResult → List AddCall
  | _ => []

end CharacterGeneratorWrites

/-- C6 counterexample: a successful derived-asset generation (here a
walking sprite from a base image) adds NO record to the Asset Store —
`handleGenerateAsset` contains no `addAsset` call — whereas the claim
requires exactly one new record per successful generation. -/
theorem C6_derived_asset_not_stored :
    handleGenerateAssetAdds .walking (.ok "data:image/png;base64,AAA") = []
    ∧ (handleGenerateAssetAdds .walking (.ok "data:image/png;base64,AAA")).length ≠ 1 := by
  decide

/-- C6 amended: a successful base-character generation and each
successful adjustment pass add exactly one record through the single add
operation, with the adjustment record referencing its origin only inside
the free-text prompt; the derived-asset generations (walking sprite,
battler, faceset) add no record at all; no handler writes on failure. -/
theorem C6_store_writes (p adj url : String) (k : DerivedAssetKind) (e : ClientError) :
    handleGenerateBaseCharacterAdds p (.ok url) = [⟨"character", p, url⟩]
    ∧ handleAdjustBaseCharacterAdds p adj (.ok url)
        = [⟨"character", "已调整: " ++ adj ++ " (原始: " ++ p ++ ")", url⟩]
    ∧ handleGenerateAssetAdds k (.ok url) = []
    ∧ handleGenerateBaseCharacterAdds p (.failed e) = []
    ∧ handleAdjustBaseCharacterAdds p adj (.failed e) = []
    ∧ handleGenerateAssetAdds k (.failed e) = [] := by
  refine ⟨rfl, rfl, ?_, rfl, rfl, ?_⟩ <;> cases k <;> rfl

section ArchiveAssembler

/-! ### Archive assembler (claim C7)

`src/components/GameAssembler.tsx`, `handleDownload` (lines 279-380).
The function reads only `gameBlueprint` and `selectedAssets` and writes a
fixed set of files into the zip in a fixed order: the readme, the
serialized blueprint, three engine-data JSON files derived from the first
actor/enemy/item entries, and one PNG per bound slot under a
category-specific folder.  `selectedAssets` is a plain JavaScript object
keyed by the three slot names; `Object.values` iterates it in property
insertion order, which the embedding keeps as the order of the `entries`
list.  File contents are modelled symbolically: each `FileContent`
constructor captures every input-dependent byte of the file it stands
for; all remaining bytes are literal constants of the source, and
`JSON.stringify` is a pure function of its argument, so equal
`FileContent` values denote byte-identical files. -/

/-- One `{ id, name, description }` entry of the blueprint lists. -/
structure BlueprintEntry where
  id : String
  name : String
  description : String
  deriving DecidableEq, Repr

/-- One quest of the blueprint. -/
structure BlueprintQuest where
  id : String
  title : String
  objective : String
  steps : List String
  deriving DecidableEq, Repr

/-- The story block of the blueprint. -/
structure BlueprintStory where
  tagline : String
  summary : String
  deriving DecidableEq, Repr

/-- The design document produced by structured generation ("blueprint"). -/
structure GameBlueprint where
  title : String
  story : BlueprintStory
  actors : List BlueprintEntry
  enemies : List BlueprintEntry
  items : List BlueprintEntry
  maps : List BlueprintEntry
  quests : List BlueprintQuest
  deriving DecidableEq, Repr

/-- The three asset slots of the assembler (主角 / 反派 / 关键物品). -/
inductive SlotKey
  | hero
  | villain
  | keyItem
  deriving DecidableEq, BEq, Repr

/-- The `selectedAssets` object: slot-to-record bindings in property
insertion order. -/
structure SlotBindings where
  entries : List (SlotKey × AssetRecord)
  deriving DecidableEq, Repr

/-- Property access `selectedAssets[slot]`. -/
def slotLookup (sel : SlotBindings) (k : SlotKey) : Option AssetRecord :=
  (sel.entries.find? (fun e => e.1 == k)).map (fun e => e.2)

/-- Model of `` `${asset?.id || '1'}` ``: the id rendered in decimal, with
absent (and the falsy 0) replaced by `"1"`. -/
def jsIdOr1 : Option AssetRecord → String
  | some a => if a.id == 0 then "1" else toString a.id
  | none => "1"

/-- `` `AI_Hero_${heroAsset?.id || '1'}` ``. -/
def heroActorName (sel : SlotBindings) : String :=
  "AI_Hero_" ++ jsIdOr1 (slotLookup sel .hero)

/-- `` `AI_Villain_${villainAsset?.id || '1'}` ``. -/
def villainEnemyName (sel : SlotBindings) : String :=
  "AI_Villain_" ++ jsIdOr1 (slotLookup sel .villain)

/-- `` `AI_Icon_${itemAsset?.id || '1'}` ``. -/
def itemIconName (sel : SlotBindings) : String :=
  "AI_Icon_" ++ jsIdOr1 (slotLookup sel .keyItem)

/-- Model of `` list[0]?.field || dflt `` for the blueprint entry lists. -/
def jsEntryFieldOr (l : List BlueprintEntry) (f : BlueprintEntry → String)
    (dflt : String) : String :=
  match l with
  | [] => dflt
  | e :: _ => if f e == "" then dflt else f e

/-- Model of `asset.imageDataUrl.split(",")[1]`: the segment between the
first and second comma (absent when the string has no comma). -/
def splitCommaSecond (s : String) : Option String :=
  (s.splitOn ",").get? 1

/-- Symbolic content of one archive file; each constructor captures every
input-dependent byte of the file. -/
inductive FileContent
  | text (s : String)
  | blueprintJson (b : GameBlueprint)
  | actorsJson (characterName name profile : String)
  | enemiesJson (battlerName name : String)
  | itemsJson (description name : String)
  | png (base64 : Option String)
  deriving DecidableEq, Repr

/-- One file of the produced archive. -/
structure ZipEntry where
  path : String
  content : FileContent
  deriving DecidableEq, Repr

/-- The literal readme written at the top of the archive. -/
def readmeContent : String :=
  "\n# AI 生成的 RPG Maker MZ 项目\n这个 ZIP 文件包含了由 AI RPG 资源工厂生成的资源和游戏策划案。\n\n## 如何使用\n1. 在 RPG Maker MZ 中创建一个新的空白项目。\n2. 打开项目文件夹。\n3. 将此 ZIP 文件中的 \x27img\x27 和 \x27data\x27 文件夹拖放到你的项目文件夹中，合并/替换文件夹。\n4. 打开 \x27game_plan.json\x27 查看故事、角色信息和任务详情。\n5. 使用 RPG Maker MZ 编辑器根据游戏策划案构建地图、事件和数据库条目。\n\n祝你游戏制作愉快！\n"

/-- The image entry produced for one bound asset by the loop over
`Object.values(selectedAssets)`: skipped when `imageDataUrl` is falsy,
otherwise a PNG under the folder and name chosen by the switch on
`asset.type`. -/
def imgEntryFor (sel : SlotBindings) (a : AssetRecord) : Option ZipEntry :=
  if a.imageDataUrl == "" then none
  else
    let fn : String × String :=
      if a.type == "character" then ("characters", heroActorName sel ++ ".png")
      else if a.type == "monster" then ("sv_actors", villainEnemyName sel ++ ".png")
      else if a.type == "item" || a.type == "equipment" then ("icons", itemIconName sel ++ ".png")
      else ("pictures", "AI_Asset_" ++ toString a.id ++ ".png")
    some ⟨"img/" ++ fn.1 ++ "/" ++ fn.2, .png (splitCommaSecond a.imageDataUrl)⟩

/-- The fixed category-to-folder table of the assembler. -/
def archiveImgFolder (category : String) : String :=
  if category == "character" then "characters"
  else if category == "monster" then "sv_actors"
  else if category == "item" || category == "equipment" then "icons"
  else "pictures"

/-- The fixed file-name table of the assembler: a deterministic function
of the asset category, the bound slot record ids, and (for the generic
case) the asset id. -/
def archiveImgFile (sel : SlotBindings) (category : String) (assetId : Nat) : String :=
  if category == "character" then heroActorName sel ++ ".png"
  else if category == "monster" then villainEnemyName sel ++ ".png"
  else if category == "item" || category == "equipment" then itemIconName sel ++ ".png"
  else "AI_Asset_" ++ toString assetId ++ ".png"

/-- Embedding of `handleDownload`: the ordered list of files written into
the archive, as a function of the blueprint and the slot bindings only
(the source reads no clock and no randomness). -/
def handleDownload (b : GameBlueprint) (sel : SlotBindings) : List ZipEntry :=
  [⟨"README_使用说明.md", .text readmeContent⟩,
   ⟨"game_plan.json", .blueprintJson b⟩,
   ⟨"data/Actors.json",
     .actorsJson (heroActorName sel)
       (jsEntryFieldOr b.actors (fun e => e.name) "英雄")
       (jsEntryFieldOr b.actors (fun e => e.description) "")⟩,
   ⟨"data/Enemies.json",
     .enemiesJson (villainEnemyName sel)
       (jsEntryFieldOr b.enemies (fun e => e.name) "反派")⟩,
   ⟨"data/Items.json",
     .itemsJson (jsEntryFieldOr b.items (fun e => e.description) "一个重要的物品")
       (jsEntryFieldOr b.items (fun e => e.name) "关键物品")⟩]
  ++ (sel.entries.map (fun e => e.2)).filterMap (imgEntryFor sel)

end ArchiveAssembler

/-- C7: on identical inputs (same blueprint content, same slot-to-record
bindings) the assembler produces identical file lists with identical
per-file contents, and every image file is placed and named by the fixed
category table — a deterministic function of the asset category and the
bound record ids, with no randomized or time-dependent part. -/
theorem C7_archive_deterministic :
    (∀ (b1 b2 : GameBlueprint) (s1 s2 : SlotBindings),
        b1 = b2 → s1 = s2 → handleDownload b1 s1 = handleDownload b2 s2)
    ∧ (∀ (sel : SlotBindings) (a : AssetRecord), a.imageDataUrl ≠ "" →
        imgEntryFor sel a
          = some ⟨"img/" ++ archiveImgFolder a.type ++ "/"
                    ++ archiveImgFile sel a.type a.id,
                  .png (splitCommaSecond a.imageDataUrl)⟩) := by
  constructor
  · intro b1 b2 s1 s2 hb hs
    rw [hb, hs]
  · intro sel a ha
    have ha2 : (a.imageDataUrl == "") = false := beq_eq_false_iff_ne.mpr ha
    simp only [imgEntryFor, archiveImgFolder, archiveImgFile, ha2, Bool.false_eq_true,
      if_false]
    by_cases h1 : a.type == "character"
    · simp [h1]
    · by_cases h2 : a.type == "monster"
      · simp [h1, h2]
      · by_cases h3 : a.type == "item" || a.type == "equipment"
        · simp [h1, h2, h3]
        · simp [h1, h2, h3]

/-- A concrete blueprint for the C7 witness. -/
def c7Blueprint : GameBlueprint :=
  ⟨"Test Quest", ⟨"tag", "summary"⟩,
    [⟨"hero_01", "Aria", "a knight"⟩], [⟨"villain_01", "Morg", "a demon"⟩],
    [⟨"key_item_01", "Gem", "a gem"⟩], [], []⟩

/-- Concrete slot bindings for the C7 witness. -/
def c7Bindings : SlotBindings :=
  ⟨[(.hero, ⟨3, "character", "a knight", "data:image/png;base64,AAA", 100⟩),
    (.villain, ⟨5, "monster", "a demon", "data:image/png;base64,BBB", 101⟩),
    (.keyItem, ⟨7, "item", "a gem", "data:image/png;base64,CCC", 102⟩)]⟩

/-- The hero record bound in `c7Bindings`. -/
def c7HeroAsset : AssetRecord := ⟨3, "character", "a knight", "data:image/png;base64,AAA", 100⟩

/-- Witness for C7 at concrete inputs: determinism instantiated at equal
arguments, and the naming table evaluated on the bound hero record. -/
theorem C7_archive_deterministic_witness :
    handleDownload c7Blueprint c7Bindings = handleDownload c7Blueprint c7Bindings
    ∧ imgEntryFor c7Bindings c7HeroAsset
        = some ⟨"img/" ++ archiveImgFolder c7HeroAsset.type ++ "/"
                  ++ archiveImgFile c7Bindings c7HeroAsset.type c7HeroAsset.id,
                .png (splitCommaSecond c7HeroAsset.imageDataUrl)⟩ :=
  ⟨C7_archive_deterministic.1 c7Blueprint c7Blueprint c7Bindings c7Bindings rfl rfl,
   C7_archive_deterministic.2 c7Bindings c7HeroAsset (by decide)⟩

section PromptContracts

/-! ### Fixed pixel contracts (claim C8)

`src/services/geminiService.ts`: `generateWalkingSpriteFromImage`
(lines 354-368) and `generateCombatEffect` (lines 450-489).  The prompts
are template literals; the embedding lists their line segments (the text
between consecutive newlines) so that the exact string is
`String.intercalate "\n"` of the segments.  The walking-sprite prompt is
a constant — the caller supplies only the reference image — and the
combat-effect prompt embeds the user text in exactly one segment, so the
contract segments are identical for every user prompt. -/

/-- The line segments of the walking-sprite prompt, verbatim. -/
def walkingSpriteSegs : List String :=
  ["",
   "Using the provided character image as a reference, generate a complete RPG Maker MZ walking animation sprite sheet.",
   "CRITICAL RULE: The sprite sheet MUST be a single PNG image with a 100% transparent background (alpha channel). Do NOT draw a checkered, mosaic, or any other pattern to simulate transparency. The output must be a clean PNG with a real transparent background.",
   "- The grid must be exactly 3 columns by 4 rows.",
   "- Each frame must be 48x48 pixels, making the total image size 144x192 pixels.",
   "- Row 1: Character walking down.",
   "- Row 2: Character walking left.",
   "- Row 3: Character walking right.",
   "- Row 4: Character walking up.",
   "- Maintain the character\x27s design and colors accurately.",
   "- The style must be pixel art.",
   ""]

/-- The fixed walking-sprite prompt handed to `generateAssetFromImage`. -/
def walkingSpritePrompt : String :=
  String.intercalate "\n" walkingSpriteSegs

/-- Embedding of `generateWalkingSpriteFromImage`: the fixed prompt and
the reference image through the transform pipeline. -/
def generateWalkingSpriteFromImage (base64ImageDataUrl : String)
    (outcome : ProviderImageOutcome) : Except ClientError String :=
  generateAssetFromImage base64ImageDataUrl walkingSpritePrompt outcome

/-- The line segments of the combat-effect prompt for a given user
prompt, verbatim; the user text appears only in segment 4. -/
def combatEffectSegs (userPrompt : String) : List String :=
  ["",
   "You are an AI specialized in creating pixel art assets for the RPG Maker MZ game engine.",
   "Your task is to generate a combat animation sprite sheet based on the user\x27s request.",
   "",
   "User\x27s request: \"" ++ userPrompt ++ "\".",
   "",
   "**CRITICAL INSTRUCTIONS - YOU MUST FOLLOW THESE:**",
   "1.  **NO TEXT:** The final image must contain absolutely no text, letters, numbers, watermarks, or any other characters. It must be a pure graphical asset.",
   "2.  **FORMAT:** The output MUST be a single PNG image with a 100% transparent background (alpha channel). Do NOT draw a checkered, mosaic, or any other pattern to simulate transparency. The output must be a clean PNG with a real transparent background.",
   "3.  **LAYOUT:** The sprite sheet must contain exactly 5 animation frames. These frames must be arranged horizontally in a single row.",
   "4.  **DIMENSIONS:** Each individual frame must be exactly 192 pixels wide by 192 pixels high.",
   "5.  **TOTAL SIZE:** The final image dimensions must be exactly 960 pixels wide by 192 pixels high (5 frames × 192px width).",
   "6.  **STYLE:** The art style must be dynamic, high-impact, colorful pixel art suitable for a Japanese RPG (JRPG).",
   "",
   "The animation should depict the user\x27s requested effect, progressing logically from the first frame on the left to the last frame on the right.",
   "  "]

/-- The combat-effect master prompt. -/
def combatEffectPrompt (userPrompt : String) : String :=
  String.intercalate "\n" (combatEffectSegs userPrompt)

/-- The Imagen create-image request of `generateCombatEffect`: one PNG,
model and prompt fixed by the composer. -/
structure CreateImageRequest where
  model : String
  prompt : String
  numberOfImages : Nat
  outputMimeType : String
  deriving DecidableEq, Repr

/-- The request composed by `generateCombatEffect` for a user prompt. -/
def generateCombatEffectRequest (userPrompt : String) : CreateImageRequest :=
  ⟨"imagen-4.0-generate-001", combatEffectPrompt userPrompt, 1, "image/png"⟩

end PromptContracts

/-- C8: the composed requests carry the fixed, non-user-overridable
pixel contracts exactly.  The walking-sprite prompt is a constant whose
segments state the 3-column-by-4-row grid of 48x48 frames totalling
144x192 on a transparent background; for every user prompt, the
combat-effect request states 5 horizontally arranged frames of 192x192
each, 960x192 total, transparent background, and zero text/watermarks —
each contract segment sits at a fixed index independent of the user
text. -/
theorem C8_pixel_contracts :
    walkingSpriteSegs.get? 3 = some "- The grid must be exactly 3 columns by 4 rows."
    ∧ walkingSpriteSegs.get? 4
        = some "- Each frame must be 48x48 pixels, making the total image size 144x192 pixels."
    ∧ strIncludes walkingSpritePrompt "100% transparent background (alpha channel)" = true
    ∧ (∀ u : String, (generateCombatEffectRequest u).prompt = combatEffectPrompt u)
    ∧ (∀ u : String, (combatEffectSegs u).get? 9
        = some "3.  **LAYOUT:** The sprite sheet must contain exactly 5 animation frames. These frames must be arranged horizontally in a single row.")
    ∧ (∀ u : String, (combatEffectSegs u).get? 10
        = some "4.  **DIMENSIONS:** Each individual frame must be exactly 192 pixels wide by 192 pixels high.")
    ∧ (∀ u : String, (combatEffectSegs u).get? 11
        = some "5.  **TOTAL SIZE:** The final image dimensions must be exactly 960 pixels wide by 192 pixels high (5 frames × 192px width).")
    ∧ (∀ u : String, (combatEffectSegs u).get? 8
        = some "2.  **FORMAT:** The output MUST be a single PNG image with a 100% transparent background (alpha channel). Do NOT draw a checkered, mosaic, or any other pattern to simulate transparency. The output must be a clean PNG with a real transparent background.")
    ∧ (∀ u : String, (combatEffectSegs u).get? 7
        = some "1.  **NO TEXT:** The final image must contain absolutely no text, letters, numbers, watermarks, or any other characters. It must be a pure graphical asset.") :=
  ⟨rfl, rfl, by decide, fun u => rfl, fun u => rfl, fun u => rfl, fun u => rfl,
   fun u => rfl, fun u => rfl⟩

section StructuredText

/-! ### Structured-text generation (claim C9)

`src/services/geminiService.ts`: `generateSkillDesign` (lines 867-890)
and `generateStatsDesign` (lines 912-935) return `response.text` as is —
no `JSON.parse` appears in either function.  `generateGamePlan`
(lines 1025-1066, also `adjustGamePlan`) runs
`JSON.parse(response.text)` inside its try block; a parse exception is
caught by the same catch and handed to `handleApiError`.  The
`parsedText` field of the outcome is the `JSON.parse` oracle for the
returned text and `parseErrMsg` the message of the exception it would
throw. -/

/-- Outcome of an awaited structured-text provider call. -/
inductive StructuredOutcome
  | thrown (f : RawFailure)
  | responded (text : String) (parsedText : Option GameBlueprint) (parseErrMsg : String)
  deriving DecidableEq, Repr

/-- Embedding of `generateGamePlan`: parse the returned text, letting a
parse exception reach the generic handler of the catch block. -/
def generateGamePlan (userConcept : String) (assets : List (String × String))
    (o : StructuredOutcome) : Except ClientError GameBlueprint :=
  match userConcept, assets, o with
  | _, _, .thrown f => .error (.classified (handleApiError f))
  | _, _, .responded _ parsedText parseErrMsg =>
    match parsedText with
    | some plan => .ok plan
    | none => .error (.classified (handleApiError (.jsError parseErrMsg none)))

/-- Embedding of `generateSkillDesign`: `return response.text;` with no
parse. -/
def generateSkillDesign (userPrompt : String) (o : StructuredOutcome) :
    Except ClientError String :=
  match userPrompt, o with
  | _, .thrown f => .error (.classified (handleApiError f))
  | _, .responded text _ _ => .ok text

/-- Embedding of `generateStatsDesign`: `return response.text;` with no
parse. -/
def generateStatsDesign (userPrompt : String) (o : StructuredOutcome) :
    Except ClientError String :=
  match userPrompt, o with
  | _, .thrown f => .error (.classified (handleApiError f))
  | _, .responded text _ _ => .ok text

end StructuredText

/-- C9 counterexample: a skill-design generation whose returned text does
not parse as JSON (the oracle field is `none`) is returned to the caller
unchanged and successfully — `generateSkillDesign` never parses the text
— whereas the claim requires every structured-text generation to parse
the text and surface a parse failure as an `InvalidInput` error. -/
theorem C9_skill_design_unparsed :
    generateSkillDesign "a fire skill"
      (.responded "not a json document" none "Unexpected token o in JSON at position 1")
      = .ok "not a json document" := rfl

/-- C9 amended: only the game-plan generations parse the returned text as
JSON before returning it; a parse failure there surfaces through the
generic `handleApiError` as an Unknown-kind provider error carrying the
parse-exception message (not as `InvalidInput`); skill and stats designs
return the raw text without any parse. -/
theorem C9_structured_parsing (c u t perr : String)
    (assets : List (String × String)) (plan : GameBlueprint)
    (h1 : strIncludes perr apiKeyNotSetMarker = false)
    (h2 : strIncludes perr imagenBilledMarker = false)
    (h3 : strIncludes perr "429" = false)
    (h4 : strIncludes perr "RESOURCE_EXHAUSTED" = false) :
    generateGamePlan c assets (.responded t (some plan) perr) = .ok plan
    ∧ generateGamePlan c assets (.responded t none perr)
        = .error (.classified (.geminiApi perr))
    ∧ specErrorKind (ClassifiedError.message (.geminiApi perr)) = .unknown
    ∧ generateSkillDesign u (.responded t none perr) = .ok t
    ∧ generateStatsDesign u (.responded t none perr) = .ok t := by
  refine ⟨rfl, ?_, ?_, rfl, rfl⟩
  · simp [generateGamePlan, handleApiError, handleApiErrorCatch, h1, h2, h3, h4]
  · rfl

/-- Witness for the amended C9 at a concrete parse failure: the game-plan
parse failure reaches the caller as the Unknown-kind provider error
carrying the parse message. -/
theorem C9_structured_parsing_witness :
    generateGamePlan "concept" []
      (.responded "oops" none "Unexpected token o in JSON at position 1")
      = .error (.classified (.geminiApi "Unexpected token o in JSON at position 1")) :=
  (C9_structured_parsing "concept" "skill" "oops"
    "Unexpected token o in JSON at position 1" []
    ⟨"", ⟨"", ""⟩, [], [], [], [], []⟩
    (by decide) (by decide) (by decide) (by decide)).2.1

section CharacterSynthesis

/-! ### Multi-reference synthesis (claim C10)

`src/services/geminiService.ts`, `synthesizeCharacterFromParts`
(lines 268-350).  For each of `head`, `pose`, `clothes` that is provided,
in that order, the code appends one role statement
`` `- Image ${imageCounter}: Use this image as the primary reference for
the character's ...` `` and increments `imageCounter` — whether or not
`parseDataUrl` succeeds on the reference — while the image itself is
pushed onto `contentParts` only when `parseDataUrl` succeeds.  If no
image survives parsing, the function throws the at-least-one-reference
error before any provider call. -/

/-- The three optional reference images of the synthesis call. -/
structure SynthParts where
  head : Option String
  pose : Option String
  clothes : Option String
  deriving DecidableEq, Repr

/-- Role text for the head reference. -/
def roleAspectHead : String := "HEAD and FACE"

/-- Role text for the pose reference. -/
def roleAspectPose : String := "body POSE and ACTION"

/-- Role text for the clothes reference. -/
def roleAspectClothes : String := "CLOTHING and outfit style"

/-- One role statement of the master prompt, numbered by `imageCounter`. -/
def synthRoleLine (n : Nat) (aspect : String) : String :=
  "- Image " ++ toString n
    ++ ": Use this image as the primary reference for the character\x27s "
    ++ aspect ++ ".\n"

/-- The provided references in the order the code visits them
(head, pose, clothes), each with its role text. -/
def providedRefs (p : SynthParts) : List (String × String) :=
  (match p.head with | some s => [(s, roleAspectHead)] | none => [])
  ++ (match p.pose with | some s => [(s, roleAspectPose)] | none => [])
  ++ (match p.clothes with | some s => [(s, roleAspectClothes)] | none => [])

/-- The role statements emitted for a reference list, numbering from `n`
(`imageCounter` starts at 1 and advances per provided reference, parsed
or not). -/
def synthRoleLinesFrom (n : Nat) : List (String × String) → List String
  | [] => []
  | e :: rest => synthRoleLine n e.2 :: synthRoleLinesFrom (n + 1) rest

/-- All role statements of the master prompt, in emission order. -/
def synthRoleLines (p : SynthParts) : List String :=
  synthRoleLinesFrom 1 (providedRefs p)

/-- The images attached to the request: the provided references that
`parseDataUrl` accepts, as (mimeType, data) pairs, in visit order. -/
def synthImages (p : SynthParts) : List (String × String) :=
  (providedRefs p).filterMap (fun e => parseDataUrl e.1)

/-- The fixed opening of the synthesis master prompt. -/
def synthIntro (userPrompt : String) : String :=
  "\nYou are an expert pixel art character designer. Your task is to create a new, single, coherent, full-body character by combining elements from the provided images, based on the user\x27s description.\nUser\x27s description for the final character: \"" ++ userPrompt ++ "\".\n\nFollow these instructions for using the provided images, which follow this text prompt in order:\n"

/-- The fixed closing of the synthesis master prompt. -/
def synthClosing : String :=
  "\nIf an image for a part is not provided, generate that part based on the user\x27s text description and the other provided images.\n\n**CRITICAL INSTRUCTIONS:**\n1.  **Synthesize, Don\x27t Copy:** Intelligently merge the features. The final character should look natural and cohesive, not like a messy collage.\n2.  **Style:** The final output must be in a vibrant 16-bit JRPG pixel art style.\n3.  **Transparency:** The background MUST be 100% transparent (alpha channel). Do NOT draw any pattern to simulate transparency.\n4.  **Output:** The output must be a single PNG image containing one character, with no text or watermarks.\n"

/-- The composed master prompt: intro, one role statement per provided
reference, closing. -/
def synthMasterPrompt (p : SynthParts) (userPrompt : String) : String :=
  synthIntro userPrompt ++ String.join (synthRoleLines p) ++ synthClosing

/-- One part of the composed provider request. -/
inductive ReqPart
  | inlineData (mimeType data : String)
  | text (s : String)
  deriving DecidableEq, Repr

/-- The `contents.parts` of the synthesis request after the unshift of
the prompt text: the master prompt first, then the parsed images in
visit order. -/
def synthContentParts (p : SynthParts) (userPrompt : String) : List ReqPart :=
  .text (synthMasterPrompt p userPrompt)
    :: (synthImages p).map (fun md => .inlineData md.1 md.2)

/-- Embedding of `synthesizeCharacterFromParts`: fail before any provider
call when no reference image survives parsing, else handle the provider
response as in `generateAssetFromImage`. -/
def synthesizeCharacterFromParts (p : SynthParts) (userPrompt : String)
    (outcome : ProviderImageOutcome) : Except ClientError String :=
  match userPrompt with
  | _ =>
    if (synthImages p).isEmpty then
      .error (.direct (renderKey "serviceErrors.atLeastOneRefImage" []))
    else handleImageResponse outcome

theorem synthRoleLinesFrom_length (l : List (String × String)) :
    ∀ n : Nat, (synthRoleLinesFrom n l).length = l.length := by
  induction l with
  | nil => intro n; rfl
  | cons e rest ih =>
    intro n
    simp [synthRoleLinesFrom, ih (n + 1)]

theorem synthRoleLinesFrom_get (l : List (String × String)) :
    ∀ n i : Nat, (synthRoleLinesFrom n l).get? i
      = (l.get? i).map (fun e => synthRoleLine (n + i) e.2) := by
  induction l with
  | nil => intro n i; rfl
  | cons e rest ih =>
    intro n i
    cases i with
    | zero => rfl
    | succ i =>
      have h := ih (n + 1) i
      have harith : n + 1 + i = n + (i + 1) := by omega
      rw [harith] at h
      simpa [synthRoleLinesFrom] using h

theorem filterMap_length_of_isSome {α β : Type} (f : α → Option β) :
    ∀ l : List α, (∀ e ∈ l, (f e).isSome = true) →
      (l.filterMap f).length = l.length := by
  intro l
  induction l with
  | nil => intro _; rfl
  | cons a rest ih =>
    intro h
    rcases ho : f a with _ | v
    · have hs := h a (List.mem_cons_self a rest)
      rw [ho] at hs
      simp at hs
    · rw [List.filterMap_cons_some ho]
      simp [ih (fun e he => h e (List.mem_cons_of_mem a he))]

theorem filterMap_get_of_isSome {α β : Type} (f : α → Option β) :
    ∀ l : List α, (∀ e ∈ l, (f e).isSome = true) →
      ∀ i : Nat, (l.filterMap f).get? i = (l.get? i).bind f := by
  intro l
  induction l with
  | nil => intro _ i; rfl
  | cons a rest ih =>
    intro h i
    rcases ho : f a with _ | v
    · have hs := h a (List.mem_cons_self a rest)
      rw [ho] at hs
      simp at hs
    · rw [List.filterMap_cons_some ho]
      cases i with
      | zero => simp [ho]
      | succ i => simpa using ih (fun e he => h e (List.mem_cons_of_mem a he)) i

theorem filterMap_length_lt_of_none {α β : Type} (f : α → Option β) :
    ∀ l : List α, ∀ e ∈ l, f e = none →
      (l.filterMap f).length < l.length := by
  intro l
  induction l with
  | nil => intro e he; cases he
  | cons a rest ih =>
    intro e he hn
    rcases List.mem_cons.mp he with hea | hmem
    · rw [hea] at hn
      rw [List.filterMap_cons_none hn]
      exact Nat.lt_succ_of_le (List.length_filterMap_le f rest)
    · rcases ha : f a with _ | v
      · rw [List.filterMap_cons_none ha]
        exact Nat.lt_succ_of_lt (ih e hmem hn)
      · rw [List.filterMap_cons_some ha]
        simpa using Nat.succ_lt_succ (ih e hmem hn)

end CharacterSynthesis

/-- C10: for every subset of provided references, the composed request
carries exactly one role statement per provided reference, emitted in
head, pose, clothes order, the i-th statement citing image number i+1;
when every provided reference parses, the attached images correspond
one-to-one and in order to the statements; when a provided reference
fails to parse, its statement is still emitted while the image is
omitted, so the attached images are strictly fewer than the statements
and the stated numbering no longer matches; with no surviving image the
call fails before any provider call. -/
theorem C10_role_statements (p : SynthParts) :
    (synthRoleLines p).length = (providedRefs p).length
    ∧ (∀ i : Nat, (synthRoleLines p).get? i
        = ((providedRefs p).get? i).map (fun e => synthRoleLine (1 + i) e.2))
    ∧ ((∀ e ∈ providedRefs p, (parseDataUrl e.1).isSome = true) →
        (synthImages p).length = (synthRoleLines p).length
        ∧ ∀ i : Nat, (synthImages p).get? i
            = ((providedRefs p).get? i).bind (fun e => parseDataUrl e.1))
    ∧ (∀ e ∈ providedRefs p, parseDataUrl e.1 = none →
        (synthImages p).length < (synthRoleLines p).length)
    ∧ (∀ (u : String) (outcome : ProviderImageOutcome),
        (synthImages p).isEmpty = true →
        synthesizeCharacterFromParts p u outcome
          = .error (.direct (renderKey "serviceErrors.atLeastOneRefImage" []))) := by
  refine ⟨synthRoleLinesFrom_length (providedRefs p) 1,
    fun i => synthRoleLinesFrom_get (providedRefs p) 1 i, ?_, ?_, ?_⟩
  · intro h
    refine ⟨?_, fun i => filterMap_get_of_isSome _ (providedRefs p) h i⟩
    show (List.filterMap (fun e => parseDataUrl e.1) (providedRefs p)).length
      = (synthRoleLinesFrom 1 (providedRefs p)).length
    rw [filterMap_length_of_isSome _ (providedRefs p) h,
      synthRoleLinesFrom_length (providedRefs p) 1]
  · intro e he hn
    have hlt := filterMap_length_lt_of_none (fun e => parseDataUrl e.1) (providedRefs p) e he hn
    show (List.filterMap (fun e => parseDataUrl e.1) (providedRefs p)).length
      < (synthRoleLinesFrom 1 (providedRefs p)).length
    rwa [synthRoleLinesFrom_length (providedRefs p) 1]
  · intro u outcome h
    simp [synthesizeCharacterFromParts, h]

/-- A subset where every provided reference parses (head and clothes,
no pose). -/
def c10AllParsed : SynthParts :=
  ⟨some "data:image/png;base64,AAA", none, some "data:image/png;base64,BBB"⟩

/-- A subset with one malformed reference: the clothes reference is not
a data URI. -/
def c10Malformed : SynthParts :=
  ⟨some "data:image/png;base64,AAA", none, some "nope"⟩

/-- Witness for C10 at concrete inputs: with all references well-formed
the statements and images agree in number; with a malformed clothes
reference the images fall short of the statements. -/
theorem C10_role_statements_witness :
    (synthImages c10AllParsed).length = (synthRoleLines c10AllParsed).length
    ∧ (synthImages c10Malformed).length < (synthRoleLines c10Malformed).length :=
  ⟨((C10_role_statements c10AllParsed).2.2.1 (by decide)).1,
   (C10_role_statements c10Malformed).2.2.2.1 ("nope", roleAspectClothes)
     (by decide) (by decide)⟩
